import Mathlib

/-
Verification of the deterministic tool-exclusion service
(`browser_use/controller/exclusion/service.py` and
`browser_use/controller/exclusion/views.py`).

The service decides, from a snapshot of the browsing session, which tools
of the action catalog are hidden from the LLM for the current step.
External collaborator types (`BrowserStateSummary`, `AgentStepInfo`,
`FileSystem`) are not part of the analysed sources; they are modelled from
the specification's data-model section.
-/

namespace BrowserUse

/-- Modelled from the spec: a tab descriptor of the browsing-state snapshot
("ordered list of open tabs" / "list of tab descriptors"); only the number
of tabs is inspected by the rules. -/
structure TabInfo where
  url : String
  title : String
deriving DecidableEq, Repr

/-- Modelled from the spec: page load status enum
("loading/complete/failed/unknown").  The "unknown"/missing status is
represented as `none` at the field `loading_status` below, matching the
spec's "Missing load status" error-handling case; the Python comparisons
`loading_status == 'failed'` / `== 'complete'` are false in that case. -/
inductive LoadStatus where
  | loading
  | complete
  | failed
deriving DecidableEq, Repr

/-- Modelled from the spec: a node of the interactive-element tree
("hierarchical model of interactive page content"): a tag name, an
attribute mapping (the rules read the accessibility `role`), and the list
of child nodes (finite and acyclic by construction of the inductive). -/
inductive ElementNode where
  | mk (tag_name : String) (attributes : List (String × String)) (children : List ElementNode)

def ElementNode.tag_name : ElementNode → String
  | .mk t _ _ => t

def ElementNode.attributes : ElementNode → List (String × String)
  | .mk _ a _ => a

def ElementNode.children : ElementNode → List ElementNode
  | .mk _ _ c => c

/-- Modelled from the spec: browsing-state snapshot — "current URL, ordered
list of open tabs, root node of the interactive-element tree (nullable),
page load status, PDF-viewer flag".  The `loading_status` field is always
present on the model (so Python's `hasattr(browser_state, 'loading_status')`
is true); a missing/unknown status is the value `none`. -/
structure BrowserStateSummary where
  url : String
  tabs : List TabInfo
  element_tree : Option ElementNode
  loading_status : Option LoadStatus
  is_pdf_viewer : Bool

/-- Modelled from the spec: the persistent file store — "mapping of file
name → object exposing textual content".  A file object is its textual
content, so `files` maps names to contents; `hasattr(file_system, 'files')`
and `hasattr(todo_file, 'content')` hold on the model. -/
structure FileSystem where
  files : List (String × String)

/-- Modelled from the spec: step information of the outer decision loop —
"step_number: optional non-negative integer ... (0 = first step)". -/
structure AgentStepInfo where
  step_number : Nat
deriving DecidableEq, Repr

/-- Configuration for tool exclusion rules (from `views.py`,
`ExclusionRules`).  Note that the service stores an instance of this record
(`self.exclusion_rules`) but no rule ever reads it. -/
structure ExclusionRules where
  enable_domain_exclusions : Bool := true
  enable_tab_exclusions : Bool := true
  enable_file_system_exclusions : Bool := true
  enable_upload_exclusions : Bool := true
  enable_element_exclusions : Bool := true
  enable_dropdown_exclusions : Bool := true
  enable_navigation_exclusions : Bool := true
  enable_content_exclusions : Bool := true
  enable_scroll_exclusions : Bool := true
  enable_search_exclusions : Bool := true
  enable_wait_exclusions : Bool := true
  enable_pdf_exclusions : Bool := true
  min_elements_for_scrollability : Int := 5
  min_elements_for_interactivity : Int := 1

/-- Context information for tool exclusion decisions (from `views.py`,
`ExclusionContext`).  The unused opaque fields `sensitive_data` and
`page_extraction_llm` are modelled as optional unit values. -/
structure ExclusionContext where
  browser_state : BrowserStateSummary
  file_system : Option FileSystem := none
  available_file_paths : Option (List String) := none
  step_info : Option AgentStepInfo := none
  task : Option String := none
  sensitive_data : Option Unit := none
  page_extraction_llm : Option Unit := none

/-- Python's `str.lower()` (ASCII case folding suffices for the rules'
literals). -/
def pyLower (s : String) : String :=
  String.mk (s.toList.map Char.toLower)

/-- Python's `str.strip()`: drop leading and trailing whitespace. -/
def pyStrip (s : String) : String :=
  String.mk (((s.toList.dropWhile Char.isWhitespace).reverse.dropWhile Char.isWhitespace).reverse)

/-- Helper for `pyIn`: does `needle` occur contiguously in the char list? -/
def pyInAux (needle : List Char) : List Char → Bool
  | [] => needle.isEmpty
  | c :: cs => needle.isPrefixOf (c :: cs) || pyInAux needle cs

/-- Python's substring operator `needle in haystack` on strings. -/
def pyIn (needle haystack : String) : Bool :=
  pyInAux needle.toList haystack.toList

-- Tool category constants of `ToolExclusionService`.

def GOOGLE_SHEETS_TOOLS : List String :=
  ["read_sheet_contents", "read_cell_contents", "update_cell_contents",
   "clear_cell_contents", "select_cell_or_range",
   "fallback_input_into_single_selected_cell"]

def TAB_MANAGEMENT_TOOLS : List String := ["switch_tab", "close_tab"]

def FILE_SYSTEM_TOOLS : List String := ["read_file", "replace_file_str"]

def ELEMENT_INTERACTION_TOOLS : List String := ["click_element_by_index", "input_text"]

def DROPDOWN_TOOLS : List String := ["get_dropdown_options", "select_dropdown_option"]

def SCROLL_TOOLS : List String := ["scroll", "scroll_to_text"]

def NAVIGATION_TOOLS : List String := ["go_back"]

def CONTENT_TOOLS : List String := ["extract_structured_data"]

def UPLOAD_TOOLS : List String := ["upload_file"]

/-- Tools that should never be excluded (critical functionality). -/
def NEVER_EXCLUDE : List String := ["done", "send_keys", "go_to_url"]

/-- `_is_google_sheets_domain`: `url.startswith('https://docs.google.com')`. -/
def is_google_sheets_domain (url : String) : Bool :=
  "https://docs.google.com".toList.isPrefixOf url.toList

/-- `_has_no_file_content`: empty store, or a single `todo.md` whose content
is blank after stripping; the leading `not file_system or not hasattr`
guard is false on the model (a real `FileSystem` object is truthy and has
`files`). -/
def has_no_file_content (file_system : FileSystem) : Bool :=
  let files := file_system.files
  if files.isEmpty then
    true
  else if files.length == 1 && (files.lookup "todo.md").isSome then
    match files.lookup "todo.md" with
    | some content => if pyStrip content == "" then true else files.length == 0
    | none => files.length == 0
  else
    files.length == 0

/-- `_count_interactive_elements`: `hasattr(element_tree, 'children')` is
false for `None` (hence 0), and `element_tree.children` is truthy only when
non-empty. -/
def count_interactive_elements : Option ElementNode → Nat
  | none => 0
  | some t => if !t.children.isEmpty then t.children.length else 0

/-- `_has_clickable_elements`: false for an absent tree, otherwise whether
the interactive-element count is positive. -/
def has_clickable_elements (browser_state : BrowserStateSummary) : Bool :=
  match browser_state.element_tree with
  | none => false
  | some _ => decide (count_interactive_elements browser_state.element_tree > 0)

mutual

/-- `_find_dropdown_elements`: a node matches if its tag is `select` or its
`role` attribute is combobox/listbox/menu; otherwise the children are
searched depth-first. -/
def find_dropdown_elements : ElementNode → Bool
  | ElementNode.mk tag attrs children =>
    if pyLower tag == "select" then
      true
    else if ((attrs.lookup "role").getD "") == "combobox"
        || ((attrs.lookup "role").getD "") == "listbox"
        || ((attrs.lookup "role").getD "") == "menu" then
      true
    else
      find_dropdown_in_children children
termination_by structural t => t

/-- The `for child in element_tree.children` loop of
`_find_dropdown_elements`, returning as soon as one child matches. -/
def find_dropdown_in_children : List ElementNode → Bool
  | [] => false
  | c :: cs => find_dropdown_elements c || find_dropdown_in_children cs
termination_by structural l => l

end

/-- `_has_dropdown_elements`: false for an absent tree, otherwise search. -/
def has_dropdown_elements (browser_state : BrowserStateSummary) : Bool :=
  match browser_state.element_tree with
  | none => false
  | some t => find_dropdown_elements t

/-- `_can_go_back`: with step info present (a truthy object), navigable iff
the step number is positive; conservative default `True` otherwise. -/
def can_go_back (context : ExclusionContext) : Bool :=
  match context.step_info with
  | some step_info => decide (step_info.step_number > 0)
  | none => true

/-- `_is_page_load_failed`: `loading_status == 'failed'`; the `hasattr`
guard is true on the model, and a missing status (`none`) compares unequal
to `'failed'`. -/
def is_page_load_failed (browser_state : BrowserStateSummary) : Bool :=
  match browser_state.loading_status with
  | some LoadStatus.failed => true
  | _ => false

/-- `_is_page_scrollable`: false for an absent tree, otherwise whether the
interactive-element count exceeds the hard-coded 5 (`# Simple heuristic`;
the configured `min_elements_for_scrollability` is never consulted). -/
def is_page_scrollable (browser_state : BrowserStateSummary) : Bool :=
  match browser_state.element_tree with
  | none => false
  | some _ => decide (count_interactive_elements browser_state.element_tree > 5)

/-- `_is_duplicate_google_search`: URL contains the search path and the task
(a truthy, hence non-empty, string) contains the word `search`. -/
def is_duplicate_google_search (context : ExclusionContext) : Bool :=
  let url := context.browser_state.url
  match context.task with
  | some task =>
    if pyIn "google.com/search" url && !task.isEmpty then
      pyIn "search" (pyLower task)
    else
      false
  | none => false

/-- `_is_page_fully_loaded`: `loading_status == 'complete'`; the `hasattr`
guard is true on the model, and a missing status (`none`) compares unequal
to `'complete'`. -/
def is_page_fully_loaded (browser_state : BrowserStateSummary) : Bool :=
  match browser_state.loading_status with
  | some LoadStatus.complete => true
  | _ => false

/-- `_is_page_too_short_to_scroll`: the element count (of the possibly
absent tree) is below 3. -/
def is_page_too_short_to_scroll (browser_state : BrowserStateSummary) : Bool :=
  decide (count_interactive_elements browser_state.element_tree < 3)

/-- `not context.available_file_paths or len(context.available_file_paths) == 0`:
the upload-gate condition (absent or empty path list). -/
def upload_paths_missing : Option (List String) → Bool
  | none => true
  | some paths => paths.isEmpty || paths.length == 0

/-- `_apply_high_confidence_rules`.  The `rules` argument mirrors the
service's `self.exclusion_rules` field, which the source never reads. -/
def apply_high_confidence_rules (_rules : ExclusionRules) (context : ExclusionContext) : List String :=
  (if !is_google_sheets_domain context.browser_state.url then GOOGLE_SHEETS_TOOLS else [])
  ++ (if context.browser_state.tabs.length ≤ 1 then TAB_MANAGEMENT_TOOLS else [])
  ++ (if context.file_system.isNone then FILE_SYSTEM_TOOLS else [])
  ++ (if upload_paths_missing context.available_file_paths then UPLOAD_TOOLS else [])
  ++ (match context.file_system with
      | some fs => if has_no_file_content fs then ["read_file", "replace_file_str"] else []
      | none => [])

/-- `_apply_medium_confidence_rules`. -/
def apply_medium_confidence_rules (_rules : ExclusionRules) (context : ExclusionContext) : List String :=
  (if !has_clickable_elements context.browser_state then ELEMENT_INTERACTION_TOOLS else [])
  ++ (if !has_dropdown_elements context.browser_state then DROPDOWN_TOOLS else [])
  ++ (if !can_go_back context then NAVIGATION_TOOLS else [])
  ++ (if is_page_load_failed context.browser_state then CONTENT_TOOLS else [])
  ++ (if !is_page_scrollable context.browser_state then SCROLL_TOOLS else [])

/-- `_apply_low_confidence_rules`. -/
def apply_low_confidence_rules (_rules : ExclusionRules) (context : ExclusionContext) : List String :=
  (if is_duplicate_google_search context then ["search_google"] else [])
  ++ (if is_page_fully_loaded context.browser_state then ["wait"] else [])
  ++ (if is_page_too_short_to_scroll context.browser_state then SCROLL_TOOLS else [])
  ++ (if context.browser_state.is_pdf_viewer then CONTENT_TOOLS else [])

/-- `get_excluded_tools`: concatenate the three tiers, deduplicate
(`list(set(...))`), and drop the protected `NEVER_EXCLUDE` tools. -/
def get_excluded_tools (rules : ExclusionRules) (context : ExclusionContext) : List String :=
  let excluded_tools :=
    apply_high_confidence_rules rules context
    ++ apply_medium_confidence_rules rules context
    ++ apply_low_confidence_rules rules context
  (excluded_tools.dedup).filter (fun tool => !(NEVER_EXCLUDE.contains tool))

/-- The record returned by `get_exclusion_stats`. -/
structure ExclusionStats where
  total_excluded : Nat
  excluded_tools : List String
  high_confidence_exclusions : Nat
  medium_confidence_exclusions : Nat
  low_confidence_exclusions : Nat
  current_url : String
  tab_count : Nat
  has_file_system : Bool
  has_file_content : Bool
  available_files : Nat

/-- `get_exclusion_stats`: re-runs evaluation and reports counts plus echoed
context facts. -/
def get_exclusion_stats (rules : ExclusionRules) (context : ExclusionContext) : ExclusionStats :=
  let excluded_tools := get_excluded_tools rules context
  { total_excluded := excluded_tools.length
    excluded_tools := excluded_tools
    high_confidence_exclusions := (apply_high_confidence_rules rules context).length
    medium_confidence_exclusions := (apply_medium_confidence_rules rules context).length
    low_confidence_exclusions := (apply_low_confidence_rules rules context).length
    current_url := context.browser_state.url
    tab_count := context.browser_state.tabs.length
    has_file_system := context.file_system.isSome
    has_file_content :=
      match context.file_system with
      | some fs => !has_no_file_content fs
      | none => false
    available_files :=
      match context.available_file_paths with
      | some paths => if !paths.isEmpty then paths.length else 0
      | none => 0 }

/-- The default `ExclusionRules()` record the service constructs. -/
def default_rules : ExclusionRules := {}

/-- Replace the `i`-th rule-family enable-flag (0–11, any larger index
addressed to the last family) with `b`, leaving every other field alone:
`set_rule_flag r i true` and `set_rule_flag r i false` are identical
configurations except for that one flag. -/
def set_rule_flag (r : ExclusionRules) (i : Nat) (b : Bool) : ExclusionRules :=
  match i with
  | 0 => { r with enable_domain_exclusions := b }
  | 1 => { r with enable_tab_exclusions := b }
  | 2 => { r with enable_file_system_exclusions := b }
  | 3 => { r with enable_upload_exclusions := b }
  | 4 => { r with enable_element_exclusions := b }
  | 5 => { r with enable_dropdown_exclusions := b }
  | 6 => { r with enable_navigation_exclusions := b }
  | 7 => { r with enable_content_exclusions := b }
  | 8 => { r with enable_scroll_exclusions := b }
  | 9 => { r with enable_search_exclusions := b }
  | 10 => { r with enable_wait_exclusions := b }
  | _ => { r with enable_pdf_exclusions := b }

/-- A configuration whose scrollability threshold is 10 instead of the
default 5. -/
def rules_with_threshold_ten : ExclusionRules := { min_elements_for_scrollability := 10 }

/-- A root node with seven leaf children. -/
def seven_children_tree : ElementNode :=
  ElementNode.mk "body" []
    [ElementNode.mk "div" [] [], ElementNode.mk "div" [] [], ElementNode.mk "div" [] [],
     ElementNode.mk "div" [] [], ElementNode.mk "div" [] [], ElementNode.mk "div" [] [],
     ElementNode.mk "div" [] [], ]

/-- A context whose element tree has seven direct children. -/
def ctx_seven_children : ExclusionContext :=
  { browser_state :=
    { url := "https://example.com"
      tabs := [{ url := "https://example.com", title := "Example" }]
      element_tree := some seven_children_tree
      loading_status := none
      is_pdf_viewer := false } }

/-- A context whose browser state has no load status. -/
def ctx_no_load_status : ExclusionContext :=
  { browser_state :=
    { url := "https://example.com"
      tabs := []
      element_tree := none
      loading_status := none
      is_pdf_viewer := false } }

/-- A file store holding only the default `todo.md` with blank content. -/
def fs_only_blank_todo : FileSystem := { files := [("todo.md", "")] }

/-- A context whose file store holds only the blank default file. -/
def ctx_blank_todo : ExclusionContext :=
  { browser_state :=
    { url := "https://example.com"
      tabs := []
      element_tree := none
      loading_status := none
      is_pdf_viewer := false }
    file_system := some fs_only_blank_todo }

/-- The spec's first scenario context: `https://example.com`, one tab, no
element tree, no file store, no upload paths, all other optional fields
absent. -/
def ctx_example_com : ExclusionContext :=
  { browser_state :=
    { url := "https://example.com"
      tabs := [{ url := "https://example.com", title := "Example" }]
      element_tree := none
      loading_status := none
      is_pdf_viewer := false } }

/-- A tree with one direct child of the root but seven nodes overall. -/
def deep_tree : ElementNode :=
  ElementNode.mk "body" []
    [ElementNode.mk "div" []
      [ElementNode.mk "p" [] [], ElementNode.mk "p" [] [], ElementNode.mk "p" [] [],
       ElementNode.mk "p" [] [], ElementNode.mk "p" [] []]]

/-- A context carrying the deep tree. -/
def ctx_deep_tree : ExclusionContext :=
  { browser_state :=
    { url := "https://example.com"
      tabs := []
      element_tree := some deep_tree
      loading_status := none
      is_pdf_viewer := false } }

/-
Totality of the evaluation (C8).  The definitions below re-embed the
service in an error monad in which dereferencing an absent optional value
(`None.attr` in Python) raises, while Python's truthiness tests and
`hasattr` guards are kept as boolean checks.  Proving that this embedding
always returns `Except.ok` of the pure result shows that no combination of
absent optional fields reaches an error branch.
-/

/-- Attribute access on a possibly absent object: raises on `None`. -/
def pyAttr {α : Type} : Option α → Except String α
  | some a => Except.ok a
  | none => Except.error "AttributeError"

/-- Python truthiness of the optional task string (`None` and `''` are
falsy). -/
def task_truthy : Option String → Bool
  | none => false
  | some t => !t.isEmpty

/-- `_count_interactive_elements` in the error monad: the `hasattr` guard
protects the dereference of the possibly absent tree. -/
def count_interactive_elementsE (element_tree : Option ElementNode) : Except String Nat :=
  if element_tree.isSome then do
    let t ← pyAttr element_tree
    pure (if !t.children.isEmpty then t.children.length else 0)
  else
    pure 0

/-- `_has_clickable_elements` in the error monad. -/
def has_clickable_elementsE (browser_state : BrowserStateSummary) : Except String Bool :=
  if browser_state.element_tree.isNone then
    pure false
  else do
    let c ← count_interactive_elementsE browser_state.element_tree
    pure (decide (c > 0))

/-- `_has_dropdown_elements` in the error monad. -/
def has_dropdown_elementsE (browser_state : BrowserStateSummary) : Except String Bool :=
  if browser_state.element_tree.isNone then
    pure false
  else do
    let t ← pyAttr browser_state.element_tree
    pure (find_dropdown_elements t)

/-- `_can_go_back` in the error monad. -/
def can_go_backE (context : ExclusionContext) : Except String Bool :=
  if context.step_info.isSome then do
    let si ← pyAttr context.step_info
    pure (decide (si.step_number > 0))
  else
    pure true

/-- `_is_page_scrollable` in the error monad. -/
def is_page_scrollableE (browser_state : BrowserStateSummary) : Except String Bool :=
  if browser_state.element_tree.isNone then
    pure false
  else do
    let c ← count_interactive_elementsE browser_state.element_tree
    pure (decide (c > 5))

/-- `_is_duplicate_google_search` in the error monad: the task string is
only dereferenced after the truthiness guard. -/
def is_duplicate_google_searchE (context : ExclusionContext) : Except String Bool :=
  if pyIn "google.com/search" context.browser_state.url && task_truthy context.task then do
    let t ← pyAttr context.task
    pure (pyIn "search" (pyLower t))
  else
    pure false

/-- `_is_page_too_short_to_scroll` in the error monad: the possibly absent
tree is passed straight to the counting helper, whose `hasattr` guard is
what keeps this total. -/
def is_page_too_short_to_scrollE (browser_state : BrowserStateSummary) : Except String Bool := do
  let c ← count_interactive_elementsE browser_state.element_tree
  pure (decide (c < 3))

/-- The upload-gate condition in the error monad: `len(...)` is only
evaluated on a truthy (present, non-empty) list. -/
def upload_paths_missingE (paths : Option (List String)) : Except String Bool :=
  if (match paths with | none => true | some l => l.isEmpty) then
    pure true
  else do
    let l ← pyAttr paths
    pure (l.length == 0)

/-- The content gate of the high tier in the error monad. -/
def content_gateE (context : ExclusionContext) : Except String (List String) :=
  if context.file_system.isSome then do
    let fs ← pyAttr context.file_system
    pure (if has_no_file_content fs then ["read_file", "replace_file_str"] else [])
  else
    pure []

/-- `_apply_high_confidence_rules` in the error monad. -/
def apply_high_confidence_rulesE (_rules : ExclusionRules) (context : ExclusionContext) :
    Except String (List String) := do
  let missing ← upload_paths_missingE context.available_file_paths
  let content ← content_gateE context
  pure ((if !is_google_sheets_domain context.browser_state.url then GOOGLE_SHEETS_TOOLS else [])
    ++ (if context.browser_state.tabs.length ≤ 1 then TAB_MANAGEMENT_TOOLS else [])
    ++ (if context.file_system.isNone then FILE_SYSTEM_TOOLS else [])
    ++ (if missing then UPLOAD_TOOLS else [])
    ++ content)

/-- `_apply_medium_confidence_rules` in the error monad. -/
def apply_medium_confidence_rulesE (_rules : ExclusionRules) (context : ExclusionContext) :
    Except String (List String) := do
  let clickable ← has_clickable_elementsE context.browser_state
  let dropdown ← has_dropdown_elementsE context.browser_state
  let back ← can_go_backE context
  let scrollable ← is_page_scrollableE context.browser_state
  pure ((if !clickable then ELEMENT_INTERACTION_TOOLS else [])
    ++ (if !dropdown then DROPDOWN_TOOLS else [])
    ++ (if !back then NAVIGATION_TOOLS else [])
    ++ (if is_page_load_failed context.browser_state then CONTENT_TOOLS else [])
    ++ (if !scrollable then SCROLL_TOOLS else []))

/-- `_apply_low_confidence_rules` in the error monad. -/
def apply_low_confidence_rulesE (_rules : ExclusionRules) (context : ExclusionContext) :
    Except String (List String) := do
  let dup ← is_duplicate_google_searchE context
  let short ← is_page_too_short_to_scrollE context.browser_state
  pure ((if dup then ["search_google"] else [])
    ++ (if is_page_fully_loaded context.browser_state then ["wait"] else [])
    ++ (if short then SCROLL_TOOLS else [])
    ++ (if context.browser_state.is_pdf_viewer then CONTENT_TOOLS else []))

/-- `get_excluded_tools` in the error monad. -/
def get_excluded_toolsE (rules : ExclusionRules) (context : ExclusionContext) :
    Except String (List String) := do
  let high ← apply_high_confidence_rulesE rules context
  let medium ← apply_medium_confidence_rulesE rules context
  let low ← apply_low_confidence_rulesE rules context
  let excluded_tools := high ++ medium ++ low
  pure ((excluded_tools.dedup).filter (fun tool => !(NEVER_EXCLUDE.contains tool)))

/-- `get_exclusion_stats` in the error monad. -/
def get_exclusion_statsE (rules : ExclusionRules) (context : ExclusionContext) :
    Except String ExclusionStats := do
  let excluded_tools ← get_excluded_toolsE rules context
  let high ← apply_high_confidence_rulesE rules context
  let medium ← apply_medium_confidence_rulesE rules context
  let low ← apply_low_confidence_rulesE rules context
  let has_content ←
    if context.file_system.isSome then do
      let fs ← pyAttr context.file_system
      pure (!has_no_file_content fs)
    else
      pure false
  let avail ←
    if (match context.available_file_paths with | none => false | some l => !l.isEmpty) then do
      let l ← pyAttr context.available_file_paths
      pure l.length
    else
      pure 0
  pure { total_excluded := excluded_tools.length
         excluded_tools := excluded_tools
         high_confidence_exclusions := high.length
         medium_confidence_exclusions := medium.length
         low_confidence_exclusions := low.length
         current_url := context.browser_state.url
         tab_count := context.browser_state.tabs.length
         has_file_system := context.file_system.isSome
         has_file_content := has_content
         available_files := avail }

-- Membership characterisations of the three tiers and the aggregate.

theorem mem_ite_nil {p : Prop} [Decidable p] {l : List String} {s : String} :
    s ∈ (if p then l else []) ↔ p ∧ s ∈ l := by
  split <;> simp_all

theorem mem_apply_high_iff (rules : ExclusionRules) (ctx : ExclusionContext) (s : String) :
    s ∈ apply_high_confidence_rules rules ctx ↔
      (is_google_sheets_domain ctx.browser_state.url = false ∧ s ∈ GOOGLE_SHEETS_TOOLS)
      ∨ (ctx.browser_state.tabs.length ≤ 1 ∧ s ∈ TAB_MANAGEMENT_TOOLS)
      ∨ (ctx.file_system = none ∧ s ∈ FILE_SYSTEM_TOOLS)
      ∨ (upload_paths_missing ctx.available_file_paths = true ∧ s ∈ UPLOAD_TOOLS)
      ∨ (∃ fs, ctx.file_system = some fs ∧ has_no_file_content fs = true
          ∧ s ∈ ["read_file", "replace_file_str"]) := by
  cases hfs : ctx.file_system <;>
    simp [apply_high_confidence_rules, hfs, mem_ite_nil, List.mem_append, or_assoc]

theorem mem_apply_medium_iff (rules : ExclusionRules) (ctx : ExclusionContext) (s : String) :
    s ∈ apply_medium_confidence_rules rules ctx ↔
      (has_clickable_elements ctx.browser_state = false ∧ s ∈ ELEMENT_INTERACTION_TOOLS)
      ∨ (has_dropdown_elements ctx.browser_state = false ∧ s ∈ DROPDOWN_TOOLS)
      ∨ (can_go_back ctx = false ∧ s ∈ NAVIGATION_TOOLS)
      ∨ (is_page_load_failed ctx.browser_state = true ∧ s ∈ CONTENT_TOOLS)
      ∨ (is_page_scrollable ctx.browser_state = false ∧ s ∈ SCROLL_TOOLS) := by
  simp [apply_medium_confidence_rules, mem_ite_nil, List.mem_append, or_assoc]

theorem mem_apply_low_iff (rules : ExclusionRules) (ctx : ExclusionContext) (s : String) :
    s ∈ apply_low_confidence_rules rules ctx ↔
      (is_duplicate_google_search ctx = true ∧ s = "search_google")
      ∨ (is_page_fully_loaded ctx.browser_state = true ∧ s = "wait")
      ∨ (is_page_too_short_to_scroll ctx.browser_state = true ∧ s ∈ SCROLL_TOOLS)
      ∨ (ctx.browser_state.is_pdf_viewer = true ∧ s ∈ CONTENT_TOOLS) := by
  simp [apply_low_confidence_rules, mem_ite_nil, List.mem_append, or_assoc]

theorem mem_get_excluded_tools_iff (rules : ExclusionRules) (ctx : ExclusionContext) (s : String) :
    s ∈ get_excluded_tools rules ctx ↔
      (s ∈ apply_high_confidence_rules rules ctx
        ∨ s ∈ apply_medium_confidence_rules rules ctx
        ∨ s ∈ apply_low_confidence_rules rules ctx)
      ∧ s ∉ NEVER_EXCLUDE := by
  unfold get_excluded_tools
  simp [List.mem_filter, List.mem_dedup, List.mem_append, or_assoc]

/-- C1: for every context (any browser state, any combination of optional
fields) and any rule configuration, the list returned by
`get_excluded_tools` contains none of the protected actions `done`,
`send_keys`, `go_to_url`. -/
theorem c1_protected_tools_never_excluded (rules : ExclusionRules) (ctx : ExclusionContext) :
    "done" ∉ get_excluded_tools rules ctx
    ∧ "send_keys" ∉ get_excluded_tools rules ctx
    ∧ "go_to_url" ∉ get_excluded_tools rules ctx := by
  refine ⟨fun h => ?_, fun h => ?_, fun h => ?_⟩ <;>
    · rw [mem_get_excluded_tools_iff] at h
      exact h.2 (by decide)

/-- C9: the statistics record is internally consistent with evaluation —
`total_excluded` equals the length of its `excluded_tools` field, equals the
length of a separate `get_excluded_tools` call, and is at most the sum of
the three per-tier counts (taken before deduplication and protected-action
removal). -/
theorem c9_stats_consistent (rules : ExclusionRules) (ctx : ExclusionContext) :
    (get_exclusion_stats rules ctx).total_excluded
      = (get_exclusion_stats rules ctx).excluded_tools.length
    ∧ (get_exclusion_stats rules ctx).total_excluded
      = (get_excluded_tools rules ctx).length
    ∧ (get_exclusion_stats rules ctx).total_excluded ≤
        (get_exclusion_stats rules ctx).high_confidence_exclusions
        + (get_exclusion_stats rules ctx).medium_confidence_exclusions
        + (get_exclusion_stats rules ctx).low_confidence_exclusions := by
  refine ⟨rfl, rfl, ?_⟩
  show (get_excluded_tools rules ctx).length ≤ _
  unfold get_excluded_tools
  have h1 := List.length_filter_le (fun tool => !(NEVER_EXCLUDE.contains tool))
    ((apply_high_confidence_rules rules ctx ++ apply_medium_confidence_rules rules ctx
      ++ apply_low_confidence_rules rules ctx).dedup)
  have h2 := (List.dedup_sublist (apply_high_confidence_rules rules ctx
      ++ apply_medium_confidence_rules rules ctx
      ++ apply_low_confidence_rules rules ctx)).length_le
  calc _ ≤ _ := h1
    _ ≤ _ := h2
    _ ≤ _ := by
      simp only [List.length_append]
      exact le_rfl

/-- C4: disabling a single rule-family enable-flag never adds exclusions —
for configurations identical except that one flag is true in the first and
false in the second, every tool excluded under the second is excluded under
the first.  (This holds because the source never consults the
configuration record at all.) -/
theorem c4_disabling_rule_family_monotone (r : ExclusionRules) (i : Nat)
    (ctx : ExclusionContext) (t : String)
    (h : t ∈ get_excluded_tools (set_rule_flag r i false) ctx) :
    t ∈ get_excluded_tools (set_rule_flag r i true) ctx := h

/-- Witness for C4 at a concrete configuration pair (the scroll family flag
toggled) and context. -/
theorem c4_disabling_rule_family_monotone_witness :
    "scroll" ∈ get_excluded_tools (set_rule_flag default_rules 8 false) ctx_example_com
    ∧ "scroll" ∈ get_excluded_tools (set_rule_flag default_rules 8 true) ctx_example_com :=
  ⟨by decide, c4_disabling_rule_family_monotone default_rules 8 ctx_example_com "scroll" (by decide)⟩

theorem is_page_scrollable_eq_false_iff (bs : BrowserStateSummary) :
    is_page_scrollable bs = false ↔ count_interactive_elements bs.element_tree ≤ 5 := by
  unfold is_page_scrollable
  cases h : bs.element_tree <;> simp [h, count_interactive_elements, Nat.not_lt]

/-- C2 counterexample: with the scrollability threshold configured to 10 and
an interactive-element count of 7, the claim predicts that the scroll gate
excludes the scroll tools (7 ≤ 10), but the code keeps them: the gate
hard-codes the cutoff 5 and never reads the configured threshold. -/
theorem c2_counterexample :
    ¬ (("scroll" ∈ apply_medium_confidence_rules rules_with_threshold_ten ctx_seven_children
        ∧ "scroll_to_text" ∈ apply_medium_confidence_rules rules_with_threshold_ten ctx_seven_children)
      ↔ ((count_interactive_elements ctx_seven_children.browser_state.element_tree : Int)
          ≤ rules_with_threshold_ten.min_elements_for_scrollability)) := by
  decide

/-- C2 amended: for every context and configuration, the medium-confidence
scroll gate excludes `scroll` and `scroll_to_text` exactly when the
interactive-element count is not greater than the fixed cutoff 5; the
configured `min_elements_for_scrollability` is ignored by the code. -/
theorem c2_scroll_gate_fixed_threshold (rules : ExclusionRules) (ctx : ExclusionContext) :
    ("scroll" ∈ apply_medium_confidence_rules rules ctx
      ∧ "scroll_to_text" ∈ apply_medium_confidence_rules rules ctx)
    ↔ count_interactive_elements ctx.browser_state.element_tree ≤ 5 := by
  have hs := mem_apply_medium_iff rules ctx "scroll"
  have ht := mem_apply_medium_iff rules ctx "scroll_to_text"
  constructor
  · rintro ⟨h1, -⟩
    rw [hs] at h1
    rcases h1 with ⟨-, hm⟩ | ⟨-, hm⟩ | ⟨-, hm⟩ | ⟨-, hm⟩ | ⟨hsc, -⟩
    · exact absurd hm (by decide)
    · exact absurd hm (by decide)
    · exact absurd hm (by decide)
    · exact absurd hm (by decide)
    · exact (is_page_scrollable_eq_false_iff _).mp hsc
  · intro hc
    have hsc : is_page_scrollable ctx.browser_state = false :=
      (is_page_scrollable_eq_false_iff _).mpr hc
    exact ⟨hs.mpr (Or.inr (Or.inr (Or.inr (Or.inr ⟨hsc, by decide⟩)))),
      ht.mpr (Or.inr (Or.inr (Or.inr (Or.inr ⟨hsc, by decide⟩))))⟩

/-- C3: when the browser state carries no load status, the load-failure gate
treats the page as not failed (the medium tier does not exclude
`extract_structured_data`) and the fully-loaded gate treats it as not
complete (the low tier does not exclude `wait`). -/
theorem c3_missing_load_status_defaults (rules : ExclusionRules) (ctx : ExclusionContext)
    (h : ctx.browser_state.loading_status = none) :
    is_page_load_failed ctx.browser_state = false
    ∧ is_page_fully_loaded ctx.browser_state = false
    ∧ "extract_structured_data" ∉ apply_medium_confidence_rules rules ctx
    ∧ "wait" ∉ apply_low_confidence_rules rules ctx := by
  have hfail : is_page_load_failed ctx.browser_state = false := by
    unfold is_page_load_failed
    rw [h]
  have hfull : is_page_fully_loaded ctx.browser_state = false := by
    unfold is_page_fully_loaded
    rw [h]
  refine ⟨hfail, hfull, fun hm => ?_, fun hl => ?_⟩
  · rw [mem_apply_medium_iff] at hm
    rcases hm with ⟨-, hm⟩ | ⟨-, hm⟩ | ⟨-, hm⟩ | ⟨hf, -⟩ | ⟨-, hm⟩
    · exact absurd hm (by decide)
    · exact absurd hm (by decide)
    · exact absurd hm (by decide)
    · rw [hfail] at hf
      exact Bool.false_ne_true hf
    · exact absurd hm (by decide)
  · rw [mem_apply_low_iff] at hl
    rcases hl with ⟨-, hm⟩ | ⟨hf, -⟩ | ⟨-, hm⟩ | ⟨-, hm⟩
    · exact absurd hm (by decide)
    · rw [hfull] at hf
      exact Bool.false_ne_true hf
    · exact absurd hm (by decide)
    · exact absurd hm (by decide)

/-- Witness for C3 at a concrete context with an absent load status. -/
theorem c3_missing_load_status_defaults_witness :
    ctx_no_load_status.browser_state.loading_status = none
    ∧ (is_page_load_failed ctx_no_load_status.browser_state = false
      ∧ is_page_fully_loaded ctx_no_load_status.browser_state = false
      ∧ "extract_structured_data" ∉ apply_medium_confidence_rules default_rules ctx_no_load_status
      ∧ "wait" ∉ apply_low_confidence_rules default_rules ctx_no_load_status) :=
  ⟨rfl, c3_missing_load_status_defaults default_rules ctx_no_load_status rfl⟩

/-- C6: the navigation gate excludes `go_back` exactly when step info is
present with step number 0; with step info absent, `go_back` is not
excluded by the medium tier. -/
theorem c6_go_back_iff_step_zero (rules : ExclusionRules) (ctx : ExclusionContext) :
    "go_back" ∈ apply_medium_confidence_rules rules ctx ↔
      ∃ si, ctx.step_info = some si ∧ si.step_number = 0 := by
  rw [mem_apply_medium_iff]
  constructor
  · rintro (⟨-, hm⟩ | ⟨-, hm⟩ | ⟨hg, -⟩ | ⟨-, hm⟩ | ⟨-, hm⟩)
    · exact absurd hm (by decide)
    · exact absurd hm (by decide)
    · unfold can_go_back at hg
      cases hsi : ctx.step_info with
      | none => rw [hsi] at hg; exact absurd hg (by decide)
      | some si =>
        rw [hsi] at hg
        refine ⟨si, rfl, ?_⟩
        simpa using hg
    · exact absurd hm (by decide)
    · exact absurd hm (by decide)
  · rintro ⟨si, hsi, h0⟩
    refine Or.inr (Or.inr (Or.inl ⟨?_, by decide⟩))
    unfold can_go_back
    rw [hsi]
    simp [h0]

theorem has_no_file_content_iff (fs : FileSystem) :
    has_no_file_content fs = true ↔
      fs.files = [] ∨ ∃ c, fs.files = [("todo.md", c)] ∧ pyStrip c = "" := by
  unfold has_no_file_content
  rcases hf : fs.files with - | ⟨⟨k, c⟩, - | ⟨p, rest⟩⟩
  · simp
  · by_cases hk : k = "todo.md"
    · subst hk
      by_cases hc : pyStrip c = ""
      · simp [List.lookup, hc]
      · simp [List.lookup, hc]
    · have hbk : ("todo.md" == k) = false := beq_eq_false_iff_ne.mpr (Ne.symm hk)
      simp [List.lookup, hbk, hk]
  · simp

/-- C5: with a file store configured, the high-confidence content gate
excludes `read_file` and `replace_file_str` exactly when the store holds no
real content (empty, or only a blank default `todo.md`); `write_file` is
never excluded by the high tier. -/
theorem c5_content_gate_iff (rules : ExclusionRules) (ctx : ExclusionContext) (fs : FileSystem)
    (h : ctx.file_system = some fs) :
    (("read_file" ∈ apply_high_confidence_rules rules ctx
      ∧ "replace_file_str" ∈ apply_high_confidence_rules rules ctx)
      ↔ (fs.files = [] ∨ ∃ c, fs.files = [("todo.md", c)] ∧ pyStrip c = ""))
    ∧ "write_file" ∉ apply_high_confidence_rules rules ctx := by
  have hr := mem_apply_high_iff rules ctx "read_file"
  have hp := mem_apply_high_iff rules ctx "replace_file_str"
  refine ⟨⟨?_, ?_⟩, fun hw => ?_⟩
  · rintro ⟨h1, -⟩
    rw [hr] at h1
    rcases h1 with ⟨-, hm⟩ | ⟨-, hm⟩ | ⟨hn, -⟩ | ⟨-, hm⟩ | ⟨fs', hfs', hno, -⟩
    · exact absurd hm (by decide)
    · exact absurd hm (by decide)
    · rw [h] at hn
      exact absurd hn (by simp)
    · exact absurd hm (by decide)
    · rw [h] at hfs'
      cases Option.some.inj hfs'
      exact (has_no_file_content_iff fs).mp hno
  · intro hc
    have hno : has_no_file_content fs = true := (has_no_file_content_iff fs).mpr hc
    exact ⟨hr.mpr (Or.inr (Or.inr (Or.inr (Or.inr ⟨fs, h, hno, by decide⟩)))),
      hp.mpr (Or.inr (Or.inr (Or.inr (Or.inr ⟨fs, h, hno, by decide⟩))))⟩
  · rw [mem_apply_high_iff] at hw
    rcases hw with ⟨-, hm⟩ | ⟨-, hm⟩ | ⟨-, hm⟩ | ⟨-, hm⟩ | ⟨fs', -, -, hm⟩ <;>
      exact absurd hm (by decide)

/-- Witness for C5 at a concrete context whose store has only a blank
`todo.md`. -/
theorem c5_content_gate_iff_witness :
    ctx_blank_todo.file_system = some fs_only_blank_todo
    ∧ ((("read_file" ∈ apply_high_confidence_rules default_rules ctx_blank_todo
        ∧ "replace_file_str" ∈ apply_high_confidence_rules default_rules ctx_blank_todo)
        ↔ (fs_only_blank_todo.files = []
          ∨ ∃ c, fs_only_blank_todo.files = [("todo.md", c)] ∧ pyStrip c = ""))
      ∧ "write_file" ∉ apply_high_confidence_rules default_rules ctx_blank_todo) :=
  ⟨rfl, c5_content_gate_iff default_rules ctx_blank_todo fs_only_blank_todo rfl⟩

/-- C7: on the example scenario, the excluded set contains the six
Google-Sheets tools, the tab tools, the storage tools, the upload tool, the
interaction tools, the dropdown tools and the scroll tools, and none of the
protected actions. -/
theorem c7_example_scenario :
    "read_sheet_contents" ∈ get_excluded_tools default_rules ctx_example_com
    ∧ "read_cell_contents" ∈ get_excluded_tools default_rules ctx_example_com
    ∧ "update_cell_contents" ∈ get_excluded_tools default_rules ctx_example_com
    ∧ "clear_cell_contents" ∈ get_excluded_tools default_rules ctx_example_com
    ∧ "select_cell_or_range" ∈ get_excluded_tools default_rules ctx_example_com
    ∧ "fallback_input_into_single_selected_cell" ∈ get_excluded_tools default_rules ctx_example_com
    ∧ "switch_tab" ∈ get_excluded_tools default_rules ctx_example_com
    ∧ "close_tab" ∈ get_excluded_tools default_rules ctx_example_com
    ∧ "read_file" ∈ get_excluded_tools default_rules ctx_example_com
    ∧ "replace_file_str" ∈ get_excluded_tools default_rules ctx_example_com
    ∧ "upload_file" ∈ get_excluded_tools default_rules ctx_example_com
    ∧ "click_element_by_index" ∈ get_excluded_tools default_rules ctx_example_com
    ∧ "input_text" ∈ get_excluded_tools default_rules ctx_example_com
    ∧ "get_dropdown_options" ∈ get_excluded_tools default_rules ctx_example_com
    ∧ "select_dropdown_option" ∈ get_excluded_tools default_rules ctx_example_com
    ∧ "scroll" ∈ get_excluded_tools default_rules ctx_example_com
    ∧ "scroll_to_text" ∈ get_excluded_tools default_rules ctx_example_com
    ∧ "done" ∉ get_excluded_tools default_rules ctx_example_com
    ∧ "send_keys" ∉ get_excluded_tools default_rules ctx_example_com
    ∧ "go_to_url" ∉ get_excluded_tools default_rules ctx_example_com := by
  decide

/-- C10: the interactive-element count of a present tree is the number of
direct children of the root, not of all descendants; hence whenever the
root has at most 5 direct children the medium tier excludes the scroll
tools, no matter how many nested nodes the tree has. -/
theorem c10_count_is_direct_children (rules : ExclusionRules) (ctx : ExclusionContext)
    (t : ElementNode) (h : ctx.browser_state.element_tree = some t) :
    count_interactive_elements none = 0
    ∧ count_interactive_elements (some t) = t.children.length
    ∧ (t.children.length ≤ 5 →
        "scroll" ∈ apply_medium_confidence_rules rules ctx
        ∧ "scroll_to_text" ∈ apply_medium_confidence_rules rules ctx) := by
  have hcount : count_interactive_elements (some t) = t.children.length := by
    unfold count_interactive_elements
    cases hc : t.children <;> simp [hc]
  refine ⟨rfl, hcount, fun h5 => ?_⟩
  have hle : count_interactive_elements ctx.browser_state.element_tree ≤ 5 := by
    rw [h, hcount]
    exact h5
  have hsc : is_page_scrollable ctx.browser_state = false :=
    (is_page_scrollable_eq_false_iff _).mpr hle
  exact ⟨(mem_apply_medium_iff rules ctx "scroll").mpr
      (Or.inr (Or.inr (Or.inr (Or.inr ⟨hsc, by decide⟩)))),
    (mem_apply_medium_iff rules ctx "scroll_to_text").mpr
      (Or.inr (Or.inr (Or.inr (Or.inr ⟨hsc, by decide⟩))))⟩

/-- Witness for C10: the deep tree has one direct child (though seven nodes),
so the scroll tools are excluded. -/
theorem c10_count_is_direct_children_witness :
    ctx_deep_tree.browser_state.element_tree = some deep_tree
    ∧ deep_tree.children.length ≤ 5
    ∧ ("scroll" ∈ apply_medium_confidence_rules default_rules ctx_deep_tree
      ∧ "scroll_to_text" ∈ apply_medium_confidence_rules default_rules ctx_deep_tree) :=
  ⟨rfl, by decide,
    (c10_count_is_direct_children default_rules ctx_deep_tree deep_tree rfl).2.2 (by decide)⟩

theorem exceptPure_eq_ok {α : Type} (a : α) : (pure a : Except String α) = Except.ok a := rfl

theorem exceptBind_ok {α β : Type} (a : α) (f : α → Except String β) :
    ((Except.ok a : Except String α) >>= f) = f a := rfl

theorem count_interactive_elementsE_ok (et : Option ElementNode) :
    count_interactive_elementsE et = Except.ok (count_interactive_elements et) := by
  cases et <;> rfl

theorem has_clickable_elementsE_ok (bs : BrowserStateSummary) :
    has_clickable_elementsE bs = Except.ok (has_clickable_elements bs) := by
  unfold has_clickable_elementsE has_clickable_elements
  cases h : bs.element_tree <;> simp [h, count_interactive_elementsE_ok, pyAttr, exceptPure_eq_ok, exceptBind_ok]

theorem has_dropdown_elementsE_ok (bs : BrowserStateSummary) :
    has_dropdown_elementsE bs = Except.ok (has_dropdown_elements bs) := by
  unfold has_dropdown_elementsE has_dropdown_elements
  cases h : bs.element_tree <;> simp [h, pyAttr, exceptPure_eq_ok, exceptBind_ok]

theorem can_go_backE_ok (ctx : ExclusionContext) :
    can_go_backE ctx = Except.ok (can_go_back ctx) := by
  unfold can_go_backE can_go_back
  cases h : ctx.step_info <;> simp [h, pyAttr, exceptPure_eq_ok, exceptBind_ok]

theorem is_page_scrollableE_ok (bs : BrowserStateSummary) :
    is_page_scrollableE bs = Except.ok (is_page_scrollable bs) := by
  unfold is_page_scrollableE is_page_scrollable
  cases h : bs.element_tree <;> simp [h, count_interactive_elementsE_ok, pyAttr, exceptPure_eq_ok, exceptBind_ok]

theorem is_duplicate_google_searchE_ok (ctx : ExclusionContext) :
    is_duplicate_google_searchE ctx = Except.ok (is_duplicate_google_search ctx) := by
  unfold is_duplicate_google_searchE is_duplicate_google_search
  cases ht : ctx.task with
  | none => simp [task_truthy, ht, exceptPure_eq_ok, exceptBind_ok]
  | some t =>
    cases hurl : pyIn "google.com/search" ctx.browser_state.url <;>
      cases he : t.isEmpty <;>
        simp [task_truthy, ht, hurl, he, pyAttr, exceptPure_eq_ok, exceptBind_ok]

theorem is_page_too_short_to_scrollE_ok (bs : BrowserStateSummary) :
    is_page_too_short_to_scrollE bs = Except.ok (is_page_too_short_to_scroll bs) := by
  unfold is_page_too_short_to_scrollE is_page_too_short_to_scroll
  simp [count_interactive_elementsE_ok, exceptPure_eq_ok, exceptBind_ok]

theorem upload_paths_missingE_ok (paths : Option (List String)) :
    upload_paths_missingE paths = Except.ok (upload_paths_missing paths) := by
  unfold upload_paths_missingE upload_paths_missing
  cases paths with
  | none => rfl
  | some l => cases l <;> rfl

theorem content_gateE_ok (ctx : ExclusionContext) :
    content_gateE ctx =
      Except.ok (match ctx.file_system with
        | some fs => if has_no_file_content fs then ["read_file", "replace_file_str"] else []
        | none => []) := by
  unfold content_gateE
  cases h : ctx.file_system <;> simp [h, pyAttr, exceptPure_eq_ok, exceptBind_ok]

theorem apply_high_confidence_rulesE_ok (rules : ExclusionRules) (ctx : ExclusionContext) :
    apply_high_confidence_rulesE rules ctx = Except.ok (apply_high_confidence_rules rules ctx) := by
  unfold apply_high_confidence_rulesE apply_high_confidence_rules
  simp [upload_paths_missingE_ok, content_gateE_ok, exceptPure_eq_ok, exceptBind_ok]

theorem apply_medium_confidence_rulesE_ok (rules : ExclusionRules) (ctx : ExclusionContext) :
    apply_medium_confidence_rulesE rules ctx = Except.ok (apply_medium_confidence_rules rules ctx) := by
  unfold apply_medium_confidence_rulesE apply_medium_confidence_rules
  simp [has_clickable_elementsE_ok, has_dropdown_elementsE_ok, can_go_backE_ok,
    is_page_scrollableE_ok, exceptPure_eq_ok, exceptBind_ok]

theorem apply_low_confidence_rulesE_ok (rules : ExclusionRules) (ctx : ExclusionContext) :
    apply_low_confidence_rulesE rules ctx = Except.ok (apply_low_confidence_rules rules ctx) := by
  unfold apply_low_confidence_rulesE apply_low_confidence_rules
  simp [is_duplicate_google_searchE_ok, is_page_too_short_to_scrollE_ok, exceptPure_eq_ok, exceptBind_ok]

theorem get_excluded_toolsE_ok (rules : ExclusionRules) (ctx : ExclusionContext) :
    get_excluded_toolsE rules ctx = Except.ok (get_excluded_tools rules ctx) := by
  unfold get_excluded_toolsE get_excluded_tools
  simp [apply_high_confidence_rulesE_ok, apply_medium_confidence_rulesE_ok,
    apply_low_confidence_rulesE_ok, exceptPure_eq_ok, exceptBind_ok]

/-- C8: evaluation is total — on every well-formed context the fallible
embedding of `get_excluded_tools` and `get_exclusion_stats` returns
`Except.ok` of the pure result, so no combination of absent optional fields
reaches an error branch. -/
theorem c8_evaluation_total (rules : ExclusionRules) (ctx : ExclusionContext) :
    get_excluded_toolsE rules ctx = Except.ok (get_excluded_tools rules ctx)
    ∧ get_exclusion_statsE rules ctx = Except.ok (get_exclusion_stats rules ctx) := by
  refine ⟨get_excluded_toolsE_ok rules ctx, ?_⟩
  unfold get_exclusion_statsE get_exclusion_stats
  cases hfs : ctx.file_system <;> cases hp : ctx.available_file_paths <;>
    simp [hfs, hp, get_excluded_toolsE_ok, apply_high_confidence_rulesE_ok,
      apply_medium_confidence_rulesE_ok, apply_low_confidence_rulesE_ok, pyAttr,
      exceptPure_eq_ok, exceptBind_ok, ite_not] <;>
    (try (split <;> simp_all))

end BrowserUse
